import Mathlib

/-!
Verification of the hit-counter / CDK learning repository.

Part 1 models the runtime behaviour of the hit-counting forwarder
(the Lambda body in lambda/hitcounter.js, referenced but not shown in
the repository sources; it is modelled from the spec where noted).

Part 2 embeds the declarative resource constructions of the CDK stacks
(hit-counter app stacks, HitCounter construct, EC2 two-tier stack) as
Lean data, faithful to the TypeScript sources.
-/

set_option autoImplicit false

namespace HitCounterApp

/-- An incoming request record: per the spec, an opaque record with at
least a path field; the payload stands for the rest of the record. -/
structure HCRequest where
  path : String
  payload : String
deriving DecidableEq, Repr

/-- A response record as produced by the downstream Lambda handlers in
this repository: an HTTP status code and a body. -/
structure HCResponse where
  statusCode : Nat
  body : String
deriving DecidableEq, Repr

/-- The durable counter store (the DynamoDB Hits table): a finite
association list from path keys to integer hit counts.  A path with no
entry has no Hit Record yet. -/
abbrev CounterStore := List (String × Nat)

/-- Look up the stored Hit Record for a path, if one exists. -/
def lookupCount : CounterStore → String → Option Nat
  | [], _ => none
  | (q, n) :: rest, p => if q = p then some n else lookupCount rest p

/-- The hit count for a path, treating a missing record as zero. -/
def countOf (s : CounterStore) (p : String) : Nat :=
  (lookupCount s p).getD 0

/-- Atomic increment-by-key as the store provides it (DynamoDB
UpdateItem with an ADD expression): creates the record with count 1 on
first occurrence of the path, otherwise adds 1 to the stored count. -/
def incrementCounter : CounterStore → String → CounterStore
  | [], p => [(p, 1)]
  | (q, n) :: rest, p =>
      if q = p then (q, n + 1) :: rest else (q, n) :: incrementCounter rest p

/-- Modelled from the spec: the forwarder Lambda body
(lambda/hitcounter.js) is referenced by both hit-counter stacks but not
present in the shown source.  Per the spec it increments the counter for
the request path in the store, invokes the downstream handler with the
original input, and returns the downstream output verbatim. -/
def forwarder (downstream : HCRequest → HCResponse)
    (s : CounterStore) (req : HCRequest) : CounterStore × HCResponse :=
  (incrementCounter s req.path, downstream req)

/-- The counter store after n completed forwarder invocations of the
same request, starting from store s. -/
def invokeN (downstream : HCRequest → HCResponse) (req : HCRequest) :
    Nat → CounterStore → CounterStore
  | 0, s => s
  | n + 1, s => invokeN downstream req n (forwarder downstream s req).fst

/-- Run a sequence of requests through the forwarder, threading the
store and collecting the responses in order. -/
def runRequests (downstream : HCRequest → HCResponse) :
    CounterStore → List HCRequest → CounterStore × List HCResponse
  | s, [] => (s, [])
  | s, r :: rs =>
      let step := forwarder downstream s r
      let rest := runRequests downstream step.fst rs
      (rest.fst, step.snd :: rest.snd)

/-- Opaque runtime errors produced by the execution environment. -/
abbrev HCError := String

/-- Modelled from the spec: the forwarder Lambda body with its two
fallible external effects made explicit.  The store write and the
downstream call each either succeed or fail; the body sequences them
with no try/catch, no wrapping and no retry, so any error is returned
to the caller exactly as produced. -/
def forwarderE (incr : CounterStore → String → Except HCError CounterStore)
    (downstream : HCRequest → Except HCError HCResponse)
    (s : CounterStore) (req : HCRequest) :
    Except HCError (CounterStore × HCResponse) := do
  let s2 ← incr s req.path
  let resp ← downstream req
  pure (s2, resp)

/-- The downstream handler of src/unnamed/part_000 (the HelloHandler
inline code): returns status 200 and body Hello Architect! for every
input. -/
def helloHandler : HCRequest → HCResponse :=
  fun _ => { statusCode := 200, body := "Hello Architect!" }

end HitCounterApp

namespace CdkModel

/-- DynamoDB attribute types (aws-cdk-lib/aws-dynamodb AttributeType). -/
inductive AttributeType
  | STRING
  | NUMBER
  | BINARY
deriving DecidableEq, Repr

/-- A DynamoDB key attribute declaration: a name and a type. -/
structure TableAttribute where
  name : String
  type : AttributeType
deriving DecidableEq, Repr

/-- CDK removal policies used in the sources. -/
inductive RemovalPolicy
  | DESTROY
  | RETAIN
  | SNAPSHOT
deriving DecidableEq, Repr

/-- DynamoDB billing modes. -/
inductive BillingMode
  | PAY_PER_REQUEST
  | PROVISIONED
deriving DecidableEq, Repr

/-- A DynamoDB table as declared in the sources: construct id, the
partition key, an optional sort key (none is declared anywhere in the
repository), the removal policy, and the billing mode when the source
sets one. -/
structure TableDef where
  constructId : String
  partitionKey : TableAttribute
  sortKey : Option TableAttribute
  removalPolicy : RemovalPolicy
  billingMode : Option BillingMode
deriving DecidableEq, Repr

/-- Where a Lambda function's code comes from. -/
inductive CodeSource
  | fromInline (src : String)
  | fromAsset (dir : String)
deriving DecidableEq, Repr

/-- The value bound to an environment variable: either a deploy-time
reference derived from a created resource (table name or function name)
or a hard-coded literal string. -/
inductive EnvValue
  | tableNameOf (tableId : String)
  | functionNameOf (fnId : String)
  | literal (s : String)
deriving DecidableEq, Repr

/-- True when an environment value is derived from a created resource
rather than hard-coded. -/
def EnvValue.isDerived : EnvValue → Bool
  | .literal _ => false
  | _ => true

/-- A Lambda function as declared in the sources. -/
structure FunctionDef where
  constructId : String
  runtime : String
  handler : String
  code : CodeSource
  environment : List (String × EnvValue)
deriving DecidableEq, Repr

/-- Look up an environment variable binding on a function. -/
def envLookup (fn : FunctionDef) (key : String) : Option EnvValue :=
  (fn.environment.find? (fun kv => kv.fst = key)).map Prod.snd

/-- True when a Lambda function receives both the counter-store
identifier (HITS_TABLE_NAME) and the downstream handler identifier
(DOWNSTREAM_FUNCTION_NAME) as environment variables whose values are
derived from created resources. -/
def suppliesBothIdentifiers (fn : FunctionDef) : Bool :=
  (match envLookup fn "HITS_TABLE_NAME" with
    | some v => v.isDerived
    | none => false) &&
  (match envLookup fn "DOWNSTREAM_FUNCTION_NAME" with
    | some v => v.isDerived
    | none => false)

/-- An IAM grant issued by the sources: read/write access on a table,
or permission to invoke a function, each naming the grantee function. -/
inductive Grant
  | readWriteData (tableId : String) (granteeId : String)
  | invoke (fnId : String) (granteeId : String)
deriving DecidableEq, Repr

/-- A LambdaRestApi as declared in the sources: it is configured with a
single handler function. -/
structure RestApiDef where
  constructId : String
  handlerFnId : String
deriving DecidableEq, Repr

/-- The routing behaviour of LambdaRestApi with its default proxy
integration (the aws-cdk-lib behaviour the spec relies on): every
inbound HTTP method and path is sent to the configured handler. -/
def RestApiDef.routeOf (api : RestApiDef) (_method _path : String) : String :=
  api.handlerFnId

/-- Props of the HitCounter construct (src/unnamed/part_001): the
construct id of the downstream Lambda function. -/
structure HitCounterProps where
  downstream : String
deriving DecidableEq, Repr

/-- The resources a HitCounter instantiation creates. -/
structure HitCounterResult where
  table : TableDef
  handler : FunctionDef
  grants : List Grant
deriving DecidableEq, Repr

/-- The HitCounter construct constructor (src/unnamed/part_001): creates
the Hits table (partition key path : STRING, DESTROY, PAY_PER_REQUEST),
the HitCounterHandler Lambda with HITS_TABLE_NAME and
DOWNSTREAM_FUNCTION_NAME environment variables derived from the table
and the downstream function, and issues grantReadWriteData on the table
and grantInvoke on the downstream function, both to the handler. -/
def mkHitCounter (id : String) (props : HitCounterProps) : HitCounterResult :=
  let table : TableDef :=
    { constructId := id ++ "/Hits"
      partitionKey := { name := "path", type := .STRING }
      sortKey := none
      removalPolicy := .DESTROY
      billingMode := some .PAY_PER_REQUEST }
  let handler : FunctionDef :=
    { constructId := id ++ "/HitCounterHandler"
      runtime := "NODEJS_18_X"
      handler := "hitcounter.handler"
      code := .fromAsset "lambda"
      environment :=
        [("HITS_TABLE_NAME", .tableNameOf table.constructId),
         ("DOWNSTREAM_FUNCTION_NAME", .functionNameOf props.downstream)] }
  { table := table
    handler := handler
    grants :=
      [.readWriteData table.constructId handler.constructId,
       .invoke props.downstream handler.constructId] }

/-- The stack of src/unnamed/part_000: the HelloHandler Lambda, a
HitCounter wrapping it, and a LambdaRestApi whose handler is the
HitCounter's Lambda. -/
structure StackA where
  helloFn : FunctionDef
  helloWithCounter : HitCounterResult
  endpoint : RestApiDef
deriving DecidableEq, Repr

/-- src/unnamed/part_000 (HitCounterAppStack using the HitCounter
construct), embedded resource by resource. -/
def hitCounterAppStackA : StackA :=
  let helloFn : FunctionDef :=
    { constructId := "HelloHandler"
      runtime := "NODEJS_18_X"
      handler := "index.handler"
      code := .fromInline
        "exports.handler = async () => \x7b return \x7b statusCode: 200, body: \"Hello Architect!\" \x7d; \x7d;"
      environment := [] }
  let helloWithCounter := mkHitCounter "HelloHitCounter" { downstream := helloFn.constructId }
  { helloFn := helloFn
    helloWithCounter := helloWithCounter
    endpoint :=
      { constructId := "Endpoint"
        handlerFnId := helloWithCounter.handler.constructId } }

/-- The stack of src/hit-counter-app/lib/hit-counter-app-stack.ts: a
Hits table, the HitCounterHandler Lambda (forwarder), a read/write
grant, and a LambdaRestApi whose handler is that Lambda. -/
structure StackB where
  table : TableDef
  hitCounterFn : FunctionDef
  grants : List Grant
  endpoint : RestApiDef
deriving DecidableEq, Repr

/-- src/hit-counter-app/lib/hit-counter-app-stack.ts (HitCounterAppStack
built without the HitCounter construct), embedded resource by
resource.  Its Lambda environment carries HITS_TABLE_NAME only; no
billing mode is set on the table and no downstream function exists. -/
def hitCounterAppStackB : StackB :=
  let table : TableDef :=
    { constructId := "Hits"
      partitionKey := { name := "path", type := .STRING }
      sortKey := none
      removalPolicy := .DESTROY
      billingMode := none }
  let hitCounterFn : FunctionDef :=
    { constructId := "HitCounterHandler"
      runtime := "NODEJS_18_X"
      handler := "hitcounter.handler"
      code := .fromAsset "lambda"
      environment := [("HITS_TABLE_NAME", .tableNameOf table.constructId)] }
  { table := table
    hitCounterFn := hitCounterFn
    grants := [.readWriteData table.constructId hitCounterFn.constructId]
    endpoint := { constructId := "Endpoint", handlerFnId := hitCounterFn.constructId } }

/-- Security-group peers in the EC2 stack: any IPv4 address, or the
members of another security group. -/
inductive Peer
  | anyIpv4
  | securityGroup (sgId : String)
deriving DecidableEq, Repr

/-- Port selections used in the EC2 stack. -/
inductive PortRule
  | tcp (port : Nat)
deriving DecidableEq, Repr

/-- One ingress rule of a security group. -/
structure IngressRule where
  peer : Peer
  port : PortRule
  remark : String
deriving DecidableEq, Repr

/-- A security group with its declared ingress rules. -/
structure SecurityGroupDef where
  constructId : String
  ingress : List IngressRule
deriving DecidableEq, Repr

/-- FrontendSG of src/ec2-classic/lib/ec2-classic-stack.ts: one ingress
rule admitting TCP 80 from any IPv4 address. -/
def frontendSG : SecurityGroupDef :=
  { constructId := "FrontendSG"
    ingress := [{ peer := .anyIpv4, port := .tcp 80, remark := "Allow HTTP from anywhere" }] }

/-- BackendSG of src/ec2-classic/lib/ec2-classic-stack.ts: one ingress
rule admitting TCP 3000 only from members of FrontendSG. -/
def backendSG : SecurityGroupDef :=
  { constructId := "BackendSG"
    ingress :=
      [{ peer := .securityGroup "FrontendSG", port := .tcp 3000
         remark := "Allow Node traffic from Frontend" }] }

end CdkModel

namespace HitCounterApp

theorem lookupCount_incrementCounter_self (s : CounterStore) (p : String) :
    lookupCount (incrementCounter s p) p = some (countOf s p + 1) := by
  induction s with
  | nil => simp [incrementCounter, lookupCount, countOf]
  | cons hd rest ih =>
      obtain ⟨q, n⟩ := hd
      by_cases hq : q = p
      · simp [incrementCounter, lookupCount, countOf, hq]
      · simp [incrementCounter, lookupCount, countOf, hq, ih]

theorem lookupCount_incrementCounter_other (s : CounterStore) (p q : String)
    (h : q ≠ p) : lookupCount (incrementCounter s p) q = lookupCount s q := by
  induction s with
  | nil => simp [incrementCounter, lookupCount, Ne.symm h]
  | cons hd rest ih =>
      obtain ⟨k, n⟩ := hd
      by_cases hk : k = p
      · subst hk
        simp [incrementCounter, lookupCount, Ne.symm h]
      · simp [incrementCounter, lookupCount, hk, ih]

theorem countOf_incrementCounter_self (s : CounterStore) (p : String) :
    countOf (incrementCounter s p) p = countOf s p + 1 := by
  simp [countOf, lookupCount_incrementCounter_self]

theorem lookupCount_invokeN (d : HCRequest → HCResponse) (req : HCRequest)
    (n : Nat) (s : CounterStore) :
    lookupCount (invokeN d req (n + 1) s) req.path
      = some (countOf s req.path + (n + 1)) := by
  induction n generalizing s with
  | zero => simp [invokeN, forwarder, lookupCount_incrementCounter_self]
  | succ m ih =>
      have step : invokeN d req (m + 1 + 1) s
          = invokeN d req (m + 1) (incrementCounter s req.path) := rfl
      rw [step, ih (incrementCounter s req.path), countOf_incrementCounter_self]
      ring_nf

end HitCounterApp

open HitCounterApp CdkModel

/-- C1: for every request record with a path field, the response the
forwarder returns to the caller is exactly the response the downstream
handler returns for that same input, and it does not depend on the
current (or any prior) value of the counter stored for that path. -/
theorem C1_response_verbatim_and_counter_independent
    (d : HCRequest → HCResponse) (s s' : CounterStore) (req : HCRequest) :
    (forwarder d s req).snd = d req ∧
    (forwarder d s req).snd = (forwarder d s' req).snd :=
  ⟨rfl, rfl⟩

/-- C2: each forwarder invocation performs exactly one increment of the
counter keyed by the request's path; starting from a store with no
record for that path, after n completed invocations the stored counter
equals n, the record being created implicitly on the first occurrence. -/
theorem C2_exactly_once_increment (d : HCRequest → HCResponse)
    (s : CounterStore) (req : HCRequest) (n : Nat)
    (h : lookupCount s req.path = none) :
    countOf (forwarder d s req).fst req.path = countOf s req.path + 1 ∧
    countOf (invokeN d req n s) req.path = n ∧
    (0 < n → lookupCount (invokeN d req n s) req.path = some n) := by
  have h0 : countOf s req.path = 0 := by simp [countOf, h]
  refine ⟨countOf_incrementCounter_self s req.path, ?_, ?_⟩
  · cases n with
    | zero => simpa [invokeN] using h0
    | succ m => simp [countOf, lookupCount_invokeN d req m s, h]
  · intro hn
    cases n with
    | zero => exact absurd hn (by simp)
    | succ m => simpa [h0] using lookupCount_invokeN d req m s

/-- Witness for C2 at a concrete input: two invocations of path /hi
starting from the empty store leave the counter at 2. -/
theorem C2_exactly_once_increment_witness :
    countOf (invokeN (fun _ => { statusCode := 200, body := "ok" })
      { path := "/hi", payload := "" } 2 []) "/hi" = 2 :=
  (C2_exactly_once_increment (fun _ => { statusCode := 200, body := "ok" })
    [] { path := "/hi", payload := "" } 2 rfl).2.1

/-- C3: an invocation of the forwarder for one path leaves the stored
counter of every other path unchanged. -/
theorem C3_distinct_paths_independent (d : HCRequest → HCResponse)
    (s : CounterStore) (req : HCRequest) (p2 : String) (h : p2 ≠ req.path) :
    lookupCount (forwarder d s req).fst p2 = lookupCount s p2 :=
  lookupCount_incrementCounter_other s req.path p2 h

/-- Witness for C3 at a concrete input: invoking /a leaves the stored
counter for /b untouched. -/
theorem C3_distinct_paths_independent_witness :
    lookupCount (forwarder (fun _ => { statusCode := 200, body := "ok" })
      [("/b", 5)] { path := "/a", payload := "" }).fst "/b" = some 5 :=
  C3_distinct_paths_independent (fun _ => { statusCode := 200, body := "ok" })
    [("/b", 5)] { path := "/a", payload := "" } "/b" (by decide)

/-- C4: both hit-counter stacks wire the LambdaRestApi so that every
inbound HTTP method and path is handled by the forwarder Lambda (the
function running hitcounter.handler); in the stack that has a
downstream business-logic function, the API is not wired to it. -/
theorem C4_api_routes_to_forwarder (method path : String) :
    hitCounterAppStackA.endpoint.routeOf method path
      = hitCounterAppStackA.helloWithCounter.handler.constructId ∧
    hitCounterAppStackA.endpoint.routeOf method path
      ≠ hitCounterAppStackA.helloFn.constructId ∧
    hitCounterAppStackA.helloWithCounter.handler.handler = "hitcounter.handler" ∧
    hitCounterAppStackB.endpoint.routeOf method path
      = hitCounterAppStackB.hitCounterFn.constructId ∧
    hitCounterAppStackB.hitCounterFn.handler = "hitcounter.handler" :=
  ⟨rfl, by
    show ("HelloHitCounter/HitCounterHandler" : String) ≠ "HelloHandler"
    decide, rfl, rfl, rfl⟩

/-- C5 counterexample: the standalone hit-counter stack
(src/hit-counter-app/lib/hit-counter-app-stack.ts) constructs the
forwarder Lambda (asset lambda, handler hitcounter.handler) yet binds no
DOWNSTREAM_FUNCTION_NAME environment variable at all, so it does not
supply both identifiers. -/
theorem C5_counterexample :
    hitCounterAppStackB.hitCounterFn.handler = "hitcounter.handler" ∧
    hitCounterAppStackB.hitCounterFn.code = CodeSource.fromAsset "lambda" ∧
    envLookup hitCounterAppStackB.hitCounterFn "DOWNSTREAM_FUNCTION_NAME" = none ∧
    suppliesBothIdentifiers hitCounterAppStackB.hitCounterFn = false :=
  ⟨rfl, rfl, rfl, rfl⟩

/-- C5 amended: the HitCounter construct supplies both HITS_TABLE_NAME
and DOWNSTREAM_FUNCTION_NAME to its Lambda, derived from the created
table and the supplied downstream function; the standalone hit-counter
stack supplies only HITS_TABLE_NAME, likewise derived and never
hard-coded, and binds no downstream identifier. -/
theorem C5_identifiers_supplied_via_configuration
    (id : String) (props : HitCounterProps) :
    suppliesBothIdentifiers (mkHitCounter id props).handler = true ∧
    envLookup (mkHitCounter id props).handler "HITS_TABLE_NAME"
      = some (EnvValue.tableNameOf (mkHitCounter id props).table.constructId) ∧
    envLookup (mkHitCounter id props).handler "DOWNSTREAM_FUNCTION_NAME"
      = some (EnvValue.functionNameOf props.downstream) ∧
    envLookup hitCounterAppStackB.hitCounterFn "HITS_TABLE_NAME"
      = some (EnvValue.tableNameOf hitCounterAppStackB.table.constructId) ∧
    envLookup hitCounterAppStackB.hitCounterFn "DOWNSTREAM_FUNCTION_NAME" = none ∧
    ((mkHitCounter id props).handler.environment.all
      (fun kv => kv.snd.isDerived)) = true ∧
    (hitCounterAppStackB.hitCounterFn.environment.all
      (fun kv => kv.snd.isDerived)) = true :=
  ⟨rfl, rfl, rfl, rfl, rfl, rfl, rfl⟩

/-- C6: every counter table the repository constructs has partition key
path of string type and declares no other key attribute. -/
theorem C6_tables_keyed_by_path (id : String) (props : HitCounterProps) :
    (mkHitCounter id props).table.partitionKey
      = { name := "path", type := AttributeType.STRING } ∧
    (mkHitCounter id props).table.sortKey = none ∧
    hitCounterAppStackA.helloWithCounter.table.partitionKey
      = { name := "path", type := AttributeType.STRING } ∧
    hitCounterAppStackA.helloWithCounter.table.sortKey = none ∧
    hitCounterAppStackB.table.partitionKey
      = { name := "path", type := AttributeType.STRING } ∧
    hitCounterAppStackB.table.sortKey = none :=
  ⟨rfl, rfl, rfl, rfl, rfl, rfl⟩

/-- C7: the downstream handler of the hit-counter stack returns status
200 and body Hello Architect! for every input; invoking /hello three
times through the forwarder yields that response each time and leaves
the stored counter for /hello at 3. -/
theorem C7_hello_scenario :
    (∀ req : HCRequest, helloHandler req
      = { statusCode := 200, body := "Hello Architect!" }) ∧
    (runRequests helloHandler []
      [{ path := "/hello", payload := "" }, { path := "/hello", payload := "" },
       { path := "/hello", payload := "" }]).snd
      = [{ statusCode := 200, body := "Hello Architect!" },
         { statusCode := 200, body := "Hello Architect!" },
         { statusCode := 200, body := "Hello Architect!" }] ∧
    lookupCount (runRequests helloHandler []
      [{ path := "/hello", payload := "" }, { path := "/hello", payload := "" },
       { path := "/hello", payload := "" }]).fst "/hello" = some 3 :=
  ⟨fun _ => rfl, rfl, rfl⟩

/-- C8: the forwarder catches, wraps and retries nothing: a failing
counter-store write surfaces as exactly the error the store produced, a
failing downstream call surfaces as exactly the downstream error, and
when both effects succeed the downstream response is returned without
transformation. -/
theorem C8_errors_propagate_unchanged
    (incr : CounterStore → String → Except HCError CounterStore)
    (d : HCRequest → Except HCError HCResponse)
    (s : CounterStore) (req : HCRequest) (e : HCError) :
    (incr s req.path = Except.error e →
      forwarderE incr d s req = Except.error e) ∧
    (∀ s2, incr s req.path = Except.ok s2 → d req = Except.error e →
      forwarderE incr d s req = Except.error e) ∧
    (∀ s2 resp, incr s req.path = Except.ok s2 → d req = Except.ok resp →
      forwarderE incr d s req = Except.ok (s2, resp)) := by
  refine ⟨fun h1 => ?_, fun s2 h1 h2 => ?_, fun s2 resp h1 h2 => ?_⟩
  · simp only [forwarderE, h1]
    rfl
  · simp only [forwarderE, h1, h2]
    rfl
  · simp only [forwarderE, h1, h2]
    rfl

/-- Witness for C8 at concrete inputs: a store failure, a downstream
failure, and the all-success case, each evaluated concretely. -/
theorem C8_errors_propagate_unchanged_witness :
    forwarderE (fun _ _ => Except.error "store down")
      (fun _ => Except.ok { statusCode := 200, body := "ok" })
      [] { path := "/a", payload := "" } = Except.error "store down" ∧
    forwarderE (fun s p => Except.ok (incrementCounter s p))
      (fun _ => Except.error "invoke failed")
      [] { path := "/a", payload := "" } = Except.error "invoke failed" ∧
    forwarderE (fun s p => Except.ok (incrementCounter s p))
      (fun _ => Except.ok { statusCode := 200, body := "ok" })
      [] { path := "/a", payload := "" }
      = Except.ok ([("/a", 1)], { statusCode := 200, body := "ok" }) :=
  ⟨(C8_errors_propagate_unchanged (fun _ _ => Except.error "store down")
      (fun _ => Except.ok { statusCode := 200, body := "ok" })
      [] { path := "/a", payload := "" } "store down").1 rfl,
   (C8_errors_propagate_unchanged (fun s p => Except.ok (incrementCounter s p))
      (fun _ => Except.error "invoke failed")
      [] { path := "/a", payload := "" } "invoke failed").2.1 [("/a", 1)] rfl rfl,
   (C8_errors_propagate_unchanged (fun s p => Except.ok (incrementCounter s p))
      (fun _ => Except.ok { statusCode := 200, body := "ok" })
      [] { path := "/a", payload := "" } "unused").2.2 [("/a", 1)]
      { statusCode := 200, body := "ok" } rfl rfl⟩

/-- C9: every instantiation of the HitCounter construct, whatever its
id and props, grants its handler Lambda read/write access on the table
it created and invoke permission on the downstream function of its
props. -/
theorem C9_hitcounter_always_grants (id : String) (props : HitCounterProps) :
    (mkHitCounter id props).grants
      = [Grant.readWriteData (mkHitCounter id props).table.constructId
           (mkHitCounter id props).handler.constructId,
         Grant.invoke props.downstream
           (mkHitCounter id props).handler.constructId] ∧
    Grant.readWriteData (mkHitCounter id props).table.constructId
      (mkHitCounter id props).handler.constructId ∈ (mkHitCounter id props).grants ∧
    Grant.invoke props.downstream (mkHitCounter id props).handler.constructId
      ∈ (mkHitCounter id props).grants := by
  refine ⟨rfl, ?_, ?_⟩ <;> simp [mkHitCounter]

/-- C10: in the EC2 two-tier stack the frontend security group admits
ingress TCP 80 from any IPv4 address, while the backend security group
has exactly one ingress rule, admitting TCP 3000 only from members of
the frontend security group and never from arbitrary addresses. -/
theorem C10_two_tier_security_groups :
    frontendSG.ingress
      = [{ peer := Peer.anyIpv4, port := PortRule.tcp 80,
           remark := "Allow HTTP from anywhere" }] ∧
    backendSG.ingress
      = [{ peer := Peer.securityGroup frontendSG.constructId,
           port := PortRule.tcp 3000,
           remark := "Allow Node traffic from Frontend" }] ∧
    (backendSG.ingress.all (fun r => r.peer != Peer.anyIpv4)) = true :=
  ⟨rfl, rfl, rfl⟩
